import Mathlib

/-!
Verification development for the pyhaopenmotics client library.

The definitions below are a shallow embedding of the authenticated-request
pipeline shared by the cloud and local-gateway client variants:

* the error taxonomy raised by the request engine (`OMError`);
* the per-attempt outcome classification performed by `OMClient._request`
  (`classifyAttempt`) and by the legacy `OpenMoticsCloud._request`
  (`cloud_classifyAttempt`);
* the exponential-backoff retry wrapper `backoff.on_exception(backoff.expo,
  OpenMoticsConnectionError, max_tries=3)` (`backoffGo`, `requestWithBackoff`);
* the gateway token lifecycle (`gw_get_token`, `gwNeedsLogin`,
  `gw_get_auth_headers`) and the header-merge discipline (`dictUpdate`);
* the `exec_action` entry points of the two gateway implementations;
* the WebSocket connection lifecycle of `OMClient.connect` / `connected`;
* the in-place boolean query-parameter normalization of `_request`.

Stateful Python code is modelled by explicit state passing; exceptions are
modelled with `Except`; the network is modelled by passing each call's
transport-level outcome as an explicit argument.
-/

/-- Error kinds raised by the request engine and the event-stream client.
The constructors mirror the exception classes imported by
`client/omclient.py`: `OpenMoticsConnectionError`,
`OpenMoticsConnectionSslError`, `OpenMoticsConnectionTimeoutError`,
`AuthenticationException`, `OpenMoticsConnectionClosed`, and the generic
`OpenMoticsError`. -/
inductive OMError : Type
  | connectionError
  | connectionSslError
  | connectionTimeoutError
  | authenticationException
  | connectionClosed
  | genericError
deriving DecidableEq, Repr

/-- Transport-level outcome of one HTTP attempt inside `_request`, before the
engine classifies it: either a response with a status code and body arrived
(`response`; `resp.raise_for_status()` raises `aiohttp.ClientResponseError`
exactly when the status is at least 400), or the attempt raised
`asyncio.TimeoutError`, `aiohttp.ClientConnectorSSLError`, `socket.gaierror`,
or another `aiohttp.ClientError`. -/
inductive AttemptOutcome : Type
  | response (status : Nat) (isJson : Bool) (body : String)
  | timeout
  | sslError
  | dnsError
  | clientError
deriving DecidableEq, Repr

/-- Value returned by a successful `_request`: the decoded JSON structure when
the response content type is JSON, otherwise the raw text body. -/
inductive ReqResult : Type
  | json (body : String)
  | text (body : String)
deriving DecidableEq, Repr

/-- Outcome classification of one attempt by `OMClient._request`
(client/omclient.py, the try/except block around `session.request` and
`resp.raise_for_status()`): timeout raises the timeout kind, a TLS failure
raises the SSL kind, an HTTP status of 401 or 403 raises
`AuthenticationException`, any other status of at least 400 raises
`OpenMoticsConnectionError`, DNS failures and other client errors raise
`OpenMoticsConnectionError`, and a response whose status is below 400 is
returned as JSON or text according to its content type. -/
def classifyAttempt : AttemptOutcome → Except OMError ReqResult
  | .timeout => .error .connectionTimeoutError
  | .sslError => .error .connectionSslError
  | .dnsError => .error .connectionError
  | .clientError => .error .connectionError
  | .response status isJson body =>
      if 400 ≤ status then
        if status = 401 ∨ status = 403 then .error .authenticationException
        else .error .connectionError
      else if isJson then .ok (.json body)
      else .ok (.text body)

/-- Outcome classification of one attempt by the legacy
`OpenMoticsCloud._request` (openmoticscloud.py): this variant catches only
`asyncio.TimeoutError` and `(aiohttp.ClientError, socket.gaierror)`, so the
`aiohttp.ClientResponseError` raised by `resp.raise_for_status()` for any
status of at least 400 (401 and 403 included) falls into the generic branch
and raises `OpenMoticsConnectionError`; `aiohttp.ClientConnectorSSLError` is
an `aiohttp.ClientError` and is likewise mapped to
`OpenMoticsConnectionError`. -/
def cloud_classifyAttempt : AttemptOutcome → Except OMError ReqResult
  | .timeout => .error .connectionTimeoutError
  | .sslError => .error .connectionError
  | .dnsError => .error .connectionError
  | .clientError => .error .connectionError
  | .response status isJson body =>
      if 400 ≤ status then .error .connectionError
      else if isJson then .ok (.json body)
      else .ok (.text body)

/-- Modelled from the spec: the exceptions module defining the OpenMotics
exception class hierarchy is absent from the sources (`client/errors.py` is
imported by `client/omclient.py` but missing; the top-level `errors.py`
defines an unrelated taxonomy). The retry decorator on `_request` is
`backoff.on_exception(backoff.expo, OpenMoticsConnectionError, max_tries=3)`,
so an error is retried exactly when it is an instance of
`OpenMoticsConnectionError`. Per the specification's error-handling design,
the SSL kind is a subtype of the connection-error kind with identical retry
policy, while the timeout and authentication kinds are outside it and are not
retried. -/
def isRetryable : OMError → Bool
  | .connectionError => true
  | .connectionSslError => true
  | _ => false

/-- One run of the `backoff.on_exception` wrapper around `_request`.
`attempts i` is the transport outcome of the `i`-th call of the wrapped
function (0-based); `remaining` is the number of tries the wrapper may still
make. The wrapper calls the function; on success it returns the value, on a
retryable exception it retries while tries remain, and on a non-retryable
exception (or when the tries are exhausted) it re-raises. The second
component of the result is the total number of attempts issued. -/
def backoffGo (attempts : Nat → AttemptOutcome) (i : Nat) :
    Nat → Except OMError ReqResult × Nat
  | 0 => (.error .connectionError, i)
  | remaining + 1 =>
      match classifyAttempt (attempts i) with
      | .ok r => (.ok r, i + 1)
      | .error e =>
          if isRetryable e then
            if remaining = 0 then (.error e, i + 1)
            else backoffGo attempts (i + 1) remaining
          else (.error e, i + 1)

/-- The full retrying `_request` of `OMClient`: the backoff wrapper with
`max_tries=3`, meaning at most 3 total calls of the wrapped function. -/
def requestWithBackoff (attempts : Nat → AttemptOutcome) :
    Except OMError ReqResult × Nat :=
  backoffGo attempts 0 3

/-! ## Header dictionaries

Python `dict` semantics needed by `_get_auth_headers`: `d.update(u)`
overwrites the value of every key of `u` that already exists in `d` (keeping
its position) and appends the remaining keys of `u` in order. -/

/-- Assignment `d[k] = v` on a Python dict modelled as an association list:
overwrite in place when the key exists, append otherwise. -/
def dictSet (d : List (String × String)) (k v : String) :
    List (String × String) :=
  match d with
  | [] => [(k, v)]
  | (k', v') :: rest =>
      if k' = k then (k', v) :: rest else (k', v') :: dictSet rest k v

/-- Python `d.update(u)`: assign each binding of `u` into `d` in order. -/
def dictUpdate (d : List (String × String)) :
    List (String × String) → List (String × String)
  | [] => d
  | (k, v) :: rest => dictUpdate (dictSet d k v) rest

/-- Python `d.get(k)` / `d[k]`: the value of the first (and, for a dict,
only) binding of `k`. -/
def dictGet (d : List (String × String)) (k : String) : Option String :=
  match d with
  | [] => none
  | (k', v) :: rest => if k' = k then some v else dictGet rest k

/-! ## Gateway token lifecycle (client/localgateway.py) -/

/-- Token time-to-live applied by the gateway client after a successful
login (`LOCAL_TOKEN_EXPIRES_IN` in client/localgateway.py). -/
def LOCAL_TOKEN_EXPIRES_IN : Nat := 3600

/-- Clock-skew safety margin applied when testing token expiry
(`CLOCK_OUT_OF_SYNC_MAX_SEC` in client/localgateway.py). -/
def CLOCK_OUT_OF_SYNC_MAX_SEC : Nat := 20

/-- Token state of a `LocalGateway` client: `self.token` and
`self.token_expires_at` (initially `None` and `0`). Time instants are modelled
as natural numbers of seconds. -/
structure GWState : Type where
  token : Option String
  token_expires_at : Nat
deriving DecidableEq, Repr

/-- Body of the gateway login response, as read by `get_token`:
`resp["success"]` and `resp["token"]`. -/
structure LoginResp : Type where
  success : Bool
  token : String
deriving DecidableEq, Repr

/-- The `LocalGateway.get_token` method (client/localgateway.py): performs a
request against the `login` path (its outcome is the `resp` argument; an
exception raised by `_request` propagates). When `resp["success"] is True`
the returned token is stored and the expiry becomes now plus
`LOCAL_TOKEN_EXPIRES_IN`; otherwise the token is set to `None`, the expiry to
`0`, and the method returns normally. -/
def gw_get_token (now : Nat) (resp : Except OMError LoginResp)
    (s : GWState) : Except OMError GWState :=
  match resp with
  | .error e => .error e
  | .ok r =>
      if r.success then
        .ok { token := some r.token,
              token_expires_at := now + LOCAL_TOKEN_EXPIRES_IN }
      else
        .ok { token := none, token_expires_at := 0 }

/-- The login trigger condition of `LocalGateway._get_auth_headers`:
`self.token is None or self.token_expires_at < time.time() +
CLOCK_OUT_OF_SYNC_MAX_SEC`. -/
def gwNeedsLogin (s : GWState) (now : Nat) : Bool :=
  s.token.isNone || decide (s.token_expires_at < now + CLOCK_OUT_OF_SYNC_MAX_SEC)

/-- Rendering of `self.token` inside the f-string
`f"Bearer {self.token}"`: Python prints `None` for an absent token. -/
def tokenStr : Option String → String
  | some t => t
  | none => "None"

/-- The header-merging step of `LocalGateway._get_auth_headers`: start from
the caller-supplied headers (an empty dict when `None`) and `update` them
with the engine-set `User-Agent`, `Accept` and `Authorization` entries. -/
def gw_merge_headers (tok : Option String) (userAgent : String)
    (headers : Option (List (String × String))) : List (String × String) :=
  dictUpdate (headers.getD [])
    [("User-Agent", userAgent),
     ("Accept", "application/json, text/plain, */*"),
     ("Authorization", "Bearer " ++ tokenStr tok)]

/-- The `LocalGateway._get_auth_headers` method: when the login trigger
condition holds, `get_token` is run first (an exception from it propagates);
then the merged headers are built from the (possibly updated) state. The
returned boolean records whether a login request was performed. -/
def gw_get_auth_headers (s : GWState) (now : Nat)
    (loginResp : Except OMError LoginResp) (userAgent : String)
    (headers : Option (List (String × String))) :
    Except OMError (GWState × List (String × String) × Bool) :=
  if gwNeedsLogin s now then
    match gw_get_token now loginResp s with
    | .error e => .error e
    | .ok s' => .ok (s', gw_merge_headers s'.token userAgent headers, true)
  else
    .ok (s, gw_merge_headers s.token userAgent headers, false)

/-- The header-merging step of `OpenMoticsCloud._get_auth_headers`
(client/openmoticscloud.py): caller-supplied headers are `update`d with the
engine-set `Authorization` entry only (`User-Agent` and `Accept` are
commented out in this variant). -/
def cloud_merge_headers (tok : Option String)
    (headers : Option (List (String × String))) : List (String × String) :=
  dictUpdate (headers.getD [])
    [("Authorization", "Bearer " ++ tokenStr tok)]

/-! ## The two `exec_action` entry points

The repository contains two gateway implementations: the legacy top-level
`localgateway.py` and the newer `client/localgateway.py`. Their `exec_action`
methods differ in their handling of authentication failures. Both are
modelled with the outcomes of the underlying `_request` calls passed as
explicit arguments; each model also returns how many re-login calls and how
many action-request attempts were made. -/

/-- Result of one `exec_action` model: the propagated outcome, the number of
re-login calls made after an authentication failure, and the number of
`_request` calls issued for the action itself. -/
structure ExecTrace (α : Type) : Type where
  result : Except OMError α
  relogins : Nat
  actionRequests : Nat
deriving Repr

/-- The legacy `LocalGateway.exec_action` (top-level localgateway.py), from
the point where a token is present: the action request is tried once; if it
raises `AuthenticationException`, `login()` is run (an exception from the
login itself propagates) and the same request is retried exactly once, whose
outcome — success or a second `AuthenticationException` — is propagated with
no further cycle; any other exception from the first request propagates
immediately. -/
def legacy_exec_action {α : Type} (first second : Except OMError α)
    (reLogin : Except OMError Unit) : ExecTrace α :=
  match first with
  | .ok v => { result := .ok v, relogins := 0, actionRequests := 1 }
  | .error .authenticationException =>
      match reLogin with
      | .error le => { result := .error le, relogins := 1, actionRequests := 1 }
      | .ok _ => { result := second, relogins := 1, actionRequests := 2 }
  | .error e => { result := .error e, relogins := 0, actionRequests := 1 }

/-- The `LocalGateway.exec_action` of client/localgateway.py: it obtains auth
headers via `_get_auth_headers` (which may itself log in per the expiry rule,
and whose exception propagates) and then issues the `_request` exactly once,
with no exception handler: whatever the request raises or returns is
propagated as is. The `relogins` component counts re-login calls made in
reaction to an authentication failure of the action request; no such code
path exists in this variant. -/
def client_exec_action {α : Type} (s : GWState) (now : Nat)
    (loginResp : Except OMError LoginResp) (userAgent : String)
    (headers : Option (List (String × String)))
    (reqOutcome : Except OMError α) : GWState × ExecTrace α :=
  match gw_get_auth_headers s now loginResp userAgent headers with
  | .error e => (s, { result := .error e, relogins := 0, actionRequests := 0 })
  | .ok (s', _, _) =>
      (s', { result := reqOutcome, relogins := 0, actionRequests := 1 })

/-! ## URL construction and the WebSocket connection (client/omclient.py,
client/openmoticscloud.py) -/

/-- A URL split at the scheme separator, as `yarl.URL` parses it: the scheme
and everything after the separator. -/
structure Url : Type where
  scheme : String
  rest : String
deriving DecidableEq, Repr

/-- Rendering of a `Url` back to the string form `str(url)`. -/
def Url.toStr (u : Url) : String := u.scheme ++ "://" ++ u.rest

/-- The `OpenMoticsCloud._get_url` method (client/openmoticscloud.py): the
URL is `URL(f"{self.base_url}{path}")`; when a scheme override is given, the
scheme is switched to it with `url.with_scheme(scheme)`, which replaces only
the scheme component. -/
def cloud_get_url (base : Url) (path : String) (scheme : Option String) :
    Url :=
  match scheme with
  | none => { base with rest := base.rest ++ path }
  | some sch => { scheme := sch, rest := base.rest ++ path }

/-- The URL that `OMClient.connect` computes for the event stream before
dialling: `_get_url(path="/ws/events", scheme="wss")`, shown for the cloud
variant whose `_get_url` is in the sources. -/
def connect_computed_url (base : Url) : String :=
  (cloud_get_url base "/ws/events" (some "wss")).toStr

/-- The URL actually passed to `session.ws_connect` by `OMClient.connect`:
a hardcoded literal, independent of the client's configured base URL. -/
def connect_dialed_url (base : Url) : String :=
  "wss://api.openmotics.com/api/v1.1/ws/events"

/-- An open WebSocket handle as seen through `aiohttp`: an identity and a
closed flag. -/
structure WSHandle : Type where
  id : Nat
  closed : Bool
deriving DecidableEq, Repr

/-- The WebSocket-relevant state of an `OMClient`: whether an underlying
HTTP session exists, and the optional WebSocket handle `self._wsclient`. -/
structure WSClient : Type where
  hasSession : Bool
  wsclient : Option WSHandle
deriving DecidableEq, Repr

/-- The `OMClient.connected` property: true iff a WebSocket handle exists
and is not closed. -/
def wsConnected (c : WSClient) : Bool :=
  match c.wsclient with
  | some h => !h.closed
  | none => false

/-- Outcome of the underlying `session.ws_connect` dial. -/
inductive DialResult : Type
  | opened (h : WSHandle)
  | handshakeError
deriving DecidableEq, Repr

/-- The `OMClient.connect` method: return immediately when already
connected; raise the generic `OpenMoticsError` when no session exists; else
dial the socket once, storing the new handle on success and raising
`OpenMoticsConnectionError` on a handshake or DNS failure (the state is
unchanged when an exception is raised). The second component counts the
underlying socket opens issued by this call. -/
def omclient_connect (c : WSClient) (dial : DialResult) :
    Except OMError WSClient × Nat :=
  if wsConnected c then (.ok c, 0)
  else if !c.hasSession then (.error .genericError, 0)
  else
    match dial with
    | .opened h => (.ok { c with wsclient := some h }, 1)
    | .handshakeError => (.error .connectionError, 1)

/-! ## Boolean query-parameter normalization (client/omclient.py,
openmoticscloud.py) -/

/-- A Python value appearing in a query-parameter dict. -/
inductive PVal : Type
  | pbool (b : Bool)
  | pstr (s : String)
  | pint (n : Int)
deriving DecidableEq, Repr

/-- The in-place normalization loop of `_request`: for every key of the
caller's params dict whose value is a boolean, the value is replaced with
`str(value).lower()`, that is the string representation, lowercased:
`"true"` or `"false"`. Non-boolean values are left untouched. -/
def normalizeParams (ps : List (String × PVal)) : List (String × PVal) :=
  ps.map fun kv =>
    match kv.2 with
    | .pbool b => (kv.1, .pstr (if b then "true" else "false"))
    | _ => kv

/-- Combined effect of one `OMClient._request` call on the caller's params
dict: the auth-header step runs first (when it raises, the params are not yet
touched), then the params dict is mutated in place, then the attempt is
issued and classified. `callerParams` is the state of the caller's own dict
after the call, whether the call returned or raised. -/
structure ReqEffect : Type where
  result : Except OMError ReqResult
  callerParams : List (String × PVal)
deriving Repr

/-- One attempt of `OMClient._request` with a params dict: `authOk` tells
whether `_get_auth_headers` succeeded, `outcome` is the transport outcome of
the attempt. -/
def omclient_request_params (authOk : Bool)
    (params : List (String × PVal)) (outcome : AttemptOutcome) : ReqEffect :=
  if authOk then
    { result := classifyAttempt outcome, callerParams := normalizeParams params }
  else
    { result := .error .authenticationException, callerParams := params }

/-! ## Helper lemmas -/

/-- Looking up the assigned key finds the assigned value. -/
theorem dictGet_dictSet_self (d : List (String × String)) (k v : String) :
    dictGet (dictSet d k v) k = some v := by
  induction d with
  | nil => simp [dictSet, dictGet]
  | cons kv rest ih =>
      obtain ⟨k', v'⟩ := kv
      by_cases h : k' = k
      · simp [dictSet, dictGet, h]
      · simp [dictSet, dictGet, h, ih]

/-- Assigning a different key does not change a lookup. -/
theorem dictGet_dictSet_ne (d : List (String × String)) (kset k v : String)
    (h : kset ≠ k) : dictGet (dictSet d kset v) k = dictGet d k := by
  induction d with
  | nil => simp [dictSet, dictGet, h]
  | cons kv rest ih =>
      obtain ⟨k', v'⟩ := kv
      by_cases h' : k' = kset
      · subst h'
        simp [dictSet, dictGet, h]
      · simp only [dictSet, dictGet, h', if_false, ih]

/-- An update whose keys all differ from `k` does not change the lookup of
`k`. -/
theorem dictGet_dictUpdate_of_not_mem (u d : List (String × String))
    (k : String) (h : ∀ p ∈ u, p.1 ≠ k) :
    dictGet (dictUpdate d u) k = dictGet d k := by
  induction u generalizing d with
  | nil => rfl
  | cons kv rest ih =>
      obtain ⟨k', v'⟩ := kv
      have hk : k' ≠ k := h (k', v') (by simp)
      calc dictGet (dictUpdate (dictSet d k' v') rest) k
          = dictGet (dictSet d k' v') k := by
            apply ih
            intro p hp
            exact h p (by simp [hp])
        _ = dictGet d k := dictGet_dictSet_ne d k' k v' hk

/-- The retry wrapper consults only the attempts with index below
`i + remaining`. -/
theorem backoffGo_congr (a a' : Nat → AttemptOutcome) (remaining i : Nat)
    (h : ∀ j, i ≤ j → j < i + remaining → a j = a' j) :
    backoffGo a i remaining = backoffGo a' i remaining := by
  induction remaining generalizing i with
  | zero => rfl
  | succ n ih =>
      have h0 : a i = a' i := h i le_rfl (by omega)
      simp only [backoffGo, h0]
      cases classifyAttempt (a' i) with
      | ok r => rfl
      | error e =>
          by_cases hr : isRetryable e
          · by_cases hn : n = 0
            · simp [hr, hn]
            · simp only [hr, hn, if_true, if_false]
              exact ih (i + 1) (fun j hj1 hj2 => h j (by omega) (by omega))
          · simp [hr]

/-! ## Claims -/

/-- C1: when every attempt of `_request` fails with the connection-error
kind, the backoff wrapper makes exactly 3 attempts and propagates
`OpenMoticsConnectionError`; the outcome never depends on any attempt beyond
the first 3 (no fourth attempt is issued); and when an attempt among the
first three succeeds after connection-error failures, its result is
returned. -/
theorem request_connection_error_retried_three_times
    (attempts : Nat → AttemptOutcome) :
    ((∀ i, classifyAttempt (attempts i) = .error .connectionError) →
      requestWithBackoff attempts = (.error .connectionError, 3))
    ∧ (∀ attempts' : Nat → AttemptOutcome,
        (∀ i, i < 3 → attempts i = attempts' i) →
        requestWithBackoff attempts = requestWithBackoff attempts')
    ∧ (∀ k r, k < 3 →
        (∀ i, i < k → classifyAttempt (attempts i) = .error .connectionError) →
        classifyAttempt (attempts k) = .ok r →
        requestWithBackoff attempts = (.ok r, k + 1)) := by
  refine ⟨?_, ?_, ?_⟩
  · intro h
    simp [requestWithBackoff, backoffGo, h 0, h 1, h 2, isRetryable]
  · intro attempts' h
    exact backoffGo_congr attempts attempts' 3 0 (fun j _ hj => h j (by omega))
  · intro k r hk hfail hok
    interval_cases k
    · simp [requestWithBackoff, backoffGo, hok]
    · simp [requestWithBackoff, backoffGo, hfail 0 (by omega), hok, isRetryable]
    · simp [requestWithBackoff, backoffGo, hfail 0 (by omega),
        hfail 1 (by omega), hok, isRetryable]

/-- Witness for C1: an endpoint that always fails with a connection-level
client error yields exactly 3 attempts and `OpenMoticsConnectionError`. -/
theorem request_connection_error_retried_three_times_witness :
    requestWithBackoff (fun _ => .clientError) = (.error .connectionError, 3) :=
  (request_connection_error_retried_three_times (fun _ => .clientError)).1
    (fun _ => rfl)

/-- C2: when the first attempt of `_request` times out, the timeout kind is
raised after that single attempt and no retry occurs; the retry wrapper
retries exactly the connection-error category: connection and SSL errors are
retryable, timeout and authentication errors are not. -/
theorem request_timeout_not_retried (attempts : Nat → AttemptOutcome)
    (h : attempts 0 = .timeout) :
    requestWithBackoff attempts = (.error .connectionTimeoutError, 1)
    ∧ isRetryable .connectionTimeoutError = false
    ∧ isRetryable .authenticationException = false
    ∧ isRetryable .connectionError = true
    ∧ isRetryable .connectionSslError = true := by
  refine ⟨?_, rfl, rfl, rfl, rfl⟩
  simp [requestWithBackoff, backoffGo, h, classifyAttempt, isRetryable]

/-- C3: the gateway auth-header step triggers a login iff the stored token
is absent or its expiry is within `CLOCK_OUT_OF_SYNC_MAX_SEC` (20) seconds of
now; a successful login stores the returned token with expiry now + 3600; a
token whose expiry is more than 20 seconds in the future triggers no login
and leaves the state unchanged. -/
theorem gw_auth_headers_login_policy (s : GWState) (now : Nat)
    (tok userAgent : String) (headers : Option (List (String × String))) :
    (gwNeedsLogin s now = true ↔
      (s.token = none ∨ s.token_expires_at < now + CLOCK_OUT_OF_SYNC_MAX_SEC))
    ∧ CLOCK_OUT_OF_SYNC_MAX_SEC = 20
    ∧ LOCAL_TOKEN_EXPIRES_IN = 3600
    ∧ gw_get_token now (.ok ⟨true, tok⟩) s =
        .ok ⟨some tok, now + 3600⟩
    ∧ (gwNeedsLogin s now = true →
        gw_get_auth_headers s now (.ok ⟨true, tok⟩) userAgent headers =
          .ok (⟨some tok, now + 3600⟩,
            gw_merge_headers (some tok) userAgent headers, true))
    ∧ (gwNeedsLogin s now = false →
        gw_get_auth_headers s now (.ok ⟨true, tok⟩) userAgent headers =
          .ok (s, gw_merge_headers s.token userAgent headers, false))
    ∧ (∀ t, s.token = some t →
        now + CLOCK_OUT_OF_SYNC_MAX_SEC < s.token_expires_at →
        gwNeedsLogin s now = false)
    ∧ (∀ lr st hd lc, gw_get_auth_headers s now lr userAgent headers =
        .ok (st, hd, lc) → lc = gwNeedsLogin s now) := by
  refine ⟨?_, rfl, rfl, rfl, ?_, ?_, ?_, ?_⟩
  · cases htok : s.token <;>
      simp [gwNeedsLogin, htok, CLOCK_OUT_OF_SYNC_MAX_SEC]
  · intro h
    simp [gw_get_auth_headers, h, gw_get_token, LOCAL_TOKEN_EXPIRES_IN]
  · intro h
    simp [gw_get_auth_headers, h]
  · intro t htok hlt
    simp [gwNeedsLogin, htok]
    omega
  · intro lr st hd lc h
    by_cases hn : gwNeedsLogin s now
    · rw [gw_get_auth_headers, if_pos hn] at h
      cases hg : gw_get_token now lr s with
      | error e => rw [hg] at h; cases h
      | ok s' =>
          rw [hg] at h
          simp only [Except.ok.injEq, Prod.mk.injEq] at h
          rw [hn, ← h.2.2]
    · rw [gw_get_auth_headers, if_neg hn] at h
      simp only [Except.ok.injEq, Prod.mk.injEq] at h
      rw [eq_false_of_ne_true hn, ← h.2.2]

/-- Witness for C3: with no stored token, obtaining auth headers at time 1000
performs the login and stores the token with expiry 4600. -/
theorem gw_auth_headers_login_policy_witness :
    gw_get_auth_headers ⟨none, 0⟩ 1000 (.ok ⟨true, "tok"⟩) "UA" none =
      .ok (⟨some "tok", 1000 + 3600⟩,
        gw_merge_headers (some "tok") "UA" none, true) :=
  (gw_auth_headers_login_policy ⟨none, 0⟩ 1000 "tok" "UA" none).2.2.2.2.1 rfl

/-- C5 counterexample: when the gateway login endpoint responds with a
non-success body, `get_token` clears the token and the expiry but returns
normally; it does not raise `AuthenticationException` (nor any other error)
to the caller, contrary to the claim. -/
theorem gw_login_failure_no_raise_counterexample :
    gw_get_token 1000 (.ok ⟨false, "ignored"⟩) ⟨some "stale", 5000⟩ =
      .ok ⟨none, 0⟩
    ∧ gw_get_token 1000 (.ok ⟨false, "ignored"⟩) ⟨some "stale", 5000⟩ ≠
      .error .authenticationException := by
  refine ⟨rfl, ?_⟩
  intro h
  exact Except.noConfusion h

/-- C5 (amended): when the gateway login endpoint responds with a
non-success body, `get_token` clears the stored token and resets the expiry
to 0, returning normally; no stale token is left in place, but no
Authentication error is raised by `get_token` itself. -/
theorem gw_login_failure_clears_token (now : Nat) (tok : String)
    (s : GWState) :
    gw_get_token now (.ok ⟨false, tok⟩) s = .ok ⟨none, 0⟩ := rfl

/-- C4 counterexample: in the client-package `LocalGateway.exec_action`, an
action request that raises `AuthenticationException` is propagated directly
after the single attempt, with zero re-logins and zero retries — contrary to
the claim that every gateway `exec_action` performs exactly one re-login and
one retry on an Authentication error. The state below holds a token valid
far beyond the clock-skew margin, so the auth-header step performs no login
either. -/
theorem exec_action_client_no_auth_retry_counterexample :
    client_exec_action ⟨some "tok", 9999⟩ 100 (.ok ⟨true, "new"⟩) "UA" none
        (Except.error OMError.authenticationException : Except OMError String) =
      (⟨some "tok", 9999⟩,
        { result := .error .authenticationException, relogins := 0,
          actionRequests := 1 }) := rfl

/-- C4 (amended): the legacy top-level `LocalGateway.exec_action` performs
exactly one re-login and one retry when the action request raises
`AuthenticationException`, propagating the retried request's outcome
(success or a final Authentication error) with no second cycle, and performs
no re-login when the first request succeeds or fails otherwise; the
client-package `LocalGateway.exec_action` performs no such retry: the
request's outcome is propagated after the single attempt. -/
theorem exec_action_auth_retry_policy {α : Type}
    (second : Except OMError α) (s : GWState) (now : Nat)
    (newTok userAgent : String)
    (headers : Option (List (String × String))) :
    legacy_exec_action (.error .authenticationException) second (.ok ()) =
      { result := second, relogins := 1, actionRequests := 2 }
    ∧ (∀ v : α, legacy_exec_action (.ok v) second (.ok ()) =
        { result := .ok v, relogins := 0, actionRequests := 1 })
    ∧ legacy_exec_action (.error .connectionError) second (.ok ()) =
        { result := .error .connectionError, relogins := 0,
          actionRequests := 1 }
    ∧ (∀ reqOut : Except OMError α, gwNeedsLogin s now = false →
        client_exec_action s now (.ok ⟨true, newTok⟩) userAgent headers
            reqOut =
          (s, { result := reqOut, relogins := 0, actionRequests := 1 })) := by
  refine ⟨rfl, fun v => rfl, rfl, ?_⟩
  intro reqOut h
  simp [client_exec_action, gw_get_auth_headers, h]

/-- Witness for C4 (amended): a second Authentication failure after the
single re-login is propagated with no further cycle, and the client-package
variant propagates an Authentication failure with no re-login. -/
theorem exec_action_auth_retry_policy_witness :
    legacy_exec_action (α := Nat) (.error .authenticationException)
        (.error .authenticationException) (.ok ()) =
      { result := .error .authenticationException, relogins := 1,
        actionRequests := 2 }
    ∧ client_exec_action ⟨some "t", 500⟩ 100 (.ok ⟨true, "n"⟩) "UA" none
        (Except.error OMError.authenticationException : Except OMError Nat) =
      (⟨some "t", 500⟩,
        { result := .error .authenticationException, relogins := 0,
          actionRequests := 1 }) :=
  ⟨(exec_action_auth_retry_policy (α := Nat)
      (.error .authenticationException) ⟨some "t", 500⟩ 100 "n" "UA" none).1,
   (exec_action_auth_retry_policy (α := Nat)
      (.error .authenticationException) ⟨some "t", 500⟩ 100 "n" "UA"
      none).2.2.2 (.error .authenticationException) rfl⟩

/-- Witness for C2: an endpoint that always hits the request timeout yields
a single attempt and the timeout kind. -/
theorem request_timeout_not_retried_witness :
    requestWithBackoff (fun _ => .timeout) = (.error .connectionTimeoutError, 1)
    ∧ isRetryable .connectionTimeoutError = false
    ∧ isRetryable .authenticationException = false
    ∧ isRetryable .connectionError = true
    ∧ isRetryable .connectionSslError = true :=
  request_timeout_not_retried (fun _ => .timeout) rfl

/-- C6 counterexample: `resp.raise_for_status()` raises only for statuses of
at least 400, so a non-2xx status below 400 (here 304) does not raise the
Connection error kind — `OMClient._request` returns the body — contrary to
the claim that any non-2xx status other than 401/403 raises Connection
error; moreover, the legacy `OpenMoticsCloud._request` classifies a 401
response as `OpenMoticsConnectionError`, not as the Authentication kind. -/
theorem request_classification_counterexample :
    classifyAttempt (.response 304 false "not-modified") =
      .ok (.text "not-modified")
    ∧ (304 < 200 ∨ 300 ≤ 304)
    ∧ cloud_classifyAttempt (.response 401 true "denied") =
      .error .connectionError := by
  refine ⟨rfl, by omega, rfl⟩

/-- C6 (amended): in `OMClient._request`, a status of 401 or 403 raises the
Authentication kind, any other status of at least 400 raises the Connection
kind, a status below 400 returns the decoded body, DNS failures and other
client errors raise the Connection kind, and a TLS failure raises the
distinguishable SSL subtype; in the legacy `OpenMoticsCloud._request`, every
status of at least 400 (401 and 403 included) and every network or TLS
failure raises the Connection kind. -/
theorem request_error_classification (status : Nat) (isJson : Bool)
    (body : String) :
    ((status = 401 ∨ status = 403) →
      classifyAttempt (.response status isJson body) =
        .error .authenticationException)
    ∧ (400 ≤ status → status ≠ 401 → status ≠ 403 →
      classifyAttempt (.response status isJson body) =
        .error .connectionError)
    ∧ (status < 400 →
      classifyAttempt (.response status isJson body) =
        if isJson then .ok (.json body) else .ok (.text body))
    ∧ classifyAttempt .dnsError = .error .connectionError
    ∧ classifyAttempt .clientError = .error .connectionError
    ∧ classifyAttempt .sslError = .error .connectionSslError
    ∧ classifyAttempt .timeout = .error .connectionTimeoutError
    ∧ cloud_classifyAttempt .sslError = .error .connectionError
    ∧ (400 ≤ status →
      cloud_classifyAttempt (.response status isJson body) =
        .error .connectionError) := by
  refine ⟨?_, ?_, ?_, rfl, rfl, rfl, rfl, rfl, ?_⟩
  · rintro (h | h) <;> subst h <;> simp [classifyAttempt]
  · intro hge h1 h3
    have : ¬(status = 401 ∨ status = 403) := by
      rintro (h | h) <;> [exact h1 h; exact h3 h]
    simp [classifyAttempt, hge, this]
  · intro hlt
    have : ¬400 ≤ status := by omega
    simp [classifyAttempt, this]
  · intro hge
    simp [cloud_classifyAttempt, hge]

/-- Witness for C6 (amended): a 401 response raises the Authentication kind
in `OMClient._request` and the Connection kind in the legacy cloud variant;
a 500 response raises the Connection kind; a 200 JSON response is returned
decoded. -/
theorem request_error_classification_witness :
    classifyAttempt (.response 401 true "denied") =
      .error .authenticationException
    ∧ classifyAttempt (.response 500 true "boom") = .error .connectionError
    ∧ classifyAttempt (.response 200 true "data") = .ok (.json "data")
    ∧ cloud_classifyAttempt (.response 401 true "denied") =
      .error .connectionError :=
  ⟨(request_error_classification 401 true "denied").1 (Or.inl rfl),
   (request_error_classification 500 true "boom").2.1 (by omega)
     (by omega) (by omega),
   (request_error_classification 200 true "data").2.2.1 (by omega),
   (request_error_classification 401 true "denied").2.2.2.2.2.2.2.2
     (by omega)⟩

/-- C7 counterexample: in `LocalGateway._get_auth_headers` the caller's
headers dict is updated with the engine-set entries, so an
`Authorization` value supplied by the caller is overwritten by the engine's
`Bearer` value — contrary to the claim that caller-supplied keys take
precedence. -/
theorem auth_header_precedence_counterexample :
    dictGet (gw_merge_headers (some "tok") "PyHAOpenMotics/0"
        (some [("Authorization", "caller-value")])) "Authorization" =
      some "Bearer tok"
    ∧ ("Bearer tok" : String) ≠ "caller-value" := by
  refine ⟨rfl, by decide⟩

/-- C7 (amended): the engine-set header keys take precedence: after
`_get_auth_headers`, the `Authorization` value (and, for the gateway
variant, `User-Agent` and `Accept`) is the engine's regardless of what the
caller supplied, while caller-supplied keys other than the engine-set ones
keep the caller's values. -/
theorem auth_header_engine_precedence (tok : Option String) (ua : String)
    (caller : List (String × String)) (k : String) :
    dictGet (gw_merge_headers tok ua (some caller)) "Authorization" =
      some ("Bearer " ++ tokenStr tok)
    ∧ dictGet (gw_merge_headers tok ua (some caller)) "User-Agent" = some ua
    ∧ (k ≠ "User-Agent" → k ≠ "Accept" → k ≠ "Authorization" →
        dictGet (gw_merge_headers tok ua (some caller)) k = dictGet caller k)
    ∧ dictGet (cloud_merge_headers tok (some caller)) "Authorization" =
        some ("Bearer " ++ tokenStr tok)
    ∧ (k ≠ "Authorization" →
        dictGet (cloud_merge_headers tok (some caller)) k =
          dictGet caller k) := by
  refine ⟨?_, ?_, ?_, ?_, ?_⟩
  · show dictGet (dictSet _ "Authorization" _) "Authorization" = _
    exact dictGet_dictSet_self _ _ _
  · show dictGet (dictSet (dictSet (dictSet caller "User-Agent" ua) _ _)
        "Authorization" _) "User-Agent" = _
    rw [dictGet_dictSet_ne _ _ _ _ (by decide),
      dictGet_dictSet_ne _ _ _ _ (by decide)]
    exact dictGet_dictSet_self _ _ _
  · intro h1 h2 h3
    show dictGet (dictSet (dictSet (dictSet caller "User-Agent" ua) _ _)
        "Authorization" _) k = _
    rw [dictGet_dictSet_ne _ _ _ _ (Ne.symm h3),
      dictGet_dictSet_ne _ _ _ _ (Ne.symm h2),
      dictGet_dictSet_ne _ _ _ _ (Ne.symm h1)]
  · show dictGet (dictSet caller "Authorization" _) "Authorization" = _
    exact dictGet_dictSet_self _ _ _
  · intro h
    show dictGet (dictSet caller "Authorization" _) k = _
    rw [dictGet_dictSet_ne _ _ _ _ (Ne.symm h)]

/-- Witness for C7 (amended): with a caller dict defining `Authorization`
and an extra key, the transmitted `Authorization` is the engine's and the
extra key keeps the caller's value. -/
theorem auth_header_engine_precedence_witness :
    dictGet (gw_merge_headers (some "tok") "UA"
        (some [("Authorization", "caller-value"), ("X-Extra", "1")]))
        "Authorization" = some "Bearer tok"
    ∧ dictGet (gw_merge_headers (some "tok") "UA"
        (some [("Authorization", "caller-value"), ("X-Extra", "1")]))
        "X-Extra" =
      dictGet [("Authorization", "caller-value"), ("X-Extra", "1")] "X-Extra" :=
  ⟨(auth_header_engine_precedence (some "tok") "UA"
      [("Authorization", "caller-value"), ("X-Extra", "1")] "X-Extra").1,
   (auth_header_engine_precedence (some "tok") "UA"
      [("Authorization", "caller-value"), ("X-Extra", "1")] "X-Extra").2.2.1
     (by decide) (by decide) (by decide)⟩

/-- C8: `OMClient.connect` computes the event-stream URL from the client's
own base URL via `_get_url("/ws/events", scheme="wss")` but then passes a
hardcoded literal to `session.ws_connect`: for a client whose base URL is
`https://gw.example/api`, the computed URL differs from the dialled one, and
two clients with different base URLs dial the same endpoint. -/
theorem connect_dials_hardcoded_url :
    connect_computed_url ⟨"https", "gw.example/api"⟩ =
      "wss://gw.example/api/ws/events"
    ∧ connect_dialed_url ⟨"https", "gw.example/api"⟩ =
      "wss://api.openmotics.com/api/v1.1/ws/events"
    ∧ connect_computed_url ⟨"https", "gw.example/api"⟩ ≠
      connect_dialed_url ⟨"https", "gw.example/api"⟩
    ∧ connect_dialed_url ⟨"https", "gw.example/api"⟩ =
      connect_dialed_url ⟨"https", "other.example"⟩ := by
  refine ⟨by decide, rfl, by decide, rfl⟩

/-- C9: the client holds at most one WebSocket handle (the optional
`_wsclient` field); calling `connect` while already connected returns
without issuing any underlying socket open and leaves the state — hence the
existing handle — unchanged; and a fresh `connect` followed by a second
`connect` issues exactly one socket open in total. -/
theorem connect_noop_when_connected (c : WSClient) (dial : DialResult)
    (h : wsConnected c = true) :
    omclient_connect c dial = (.ok c, 0)
    ∧ (∀ (c0 : WSClient) (h0 : WSHandle) (dial' : DialResult),
        wsConnected c0 = false → c0.hasSession = true → h0.closed = false →
        omclient_connect c0 (.opened h0) =
          (.ok { c0 with wsclient := some h0 }, 1)
        ∧ omclient_connect { c0 with wsclient := some h0 } dial' =
          (.ok { c0 with wsclient := some h0 }, 0)) := by
  constructor
  · simp [omclient_connect, h]
  · intro c0 h0 dial' hdis hsess hopen
    constructor
    · simp [omclient_connect, hdis, hsess]
    · have : wsConnected { c0 with wsclient := some h0 } = true := by
        simp [wsConnected, hopen]
      simp [omclient_connect, this]

/-- Witness for C9: a connected client with a live handle is left unchanged
by a second `connect`, with zero socket opens. -/
theorem connect_noop_when_connected_witness :
    omclient_connect ⟨true, some ⟨7, false⟩⟩ .handshakeError =
      (.ok ⟨true, some ⟨7, false⟩⟩, 0)
    ∧ omclient_connect ⟨true, none⟩ (.opened ⟨7, false⟩) =
      (.ok ⟨true, some ⟨7, false⟩⟩, 1) :=
  ⟨(connect_noop_when_connected ⟨true, some ⟨7, false⟩⟩ .handshakeError
      rfl).1,
   ((connect_noop_when_connected ⟨true, some ⟨7, false⟩⟩ .handshakeError
      rfl).2 ⟨true, none⟩ ⟨7, false⟩ .handshakeError rfl rfl rfl).1⟩

/-- C10: in `_request`, once the auth-header step has succeeded, the
caller's params dict is mutated in place: every boolean value is replaced by
the lowercase string rendering ("true" or "false") before transmission, the
replacement is visible in the caller's dict whether the call returns or
raises, non-boolean values are untouched, and no boolean value remains. -/
theorem request_params_normalized_in_place
    (params : List (String × PVal)) (outcome : AttemptOutcome)
    (k : String) (b : Bool) (n : Int) :
    (omclient_request_params true params outcome).callerParams =
      normalizeParams params
    ∧ ((k, PVal.pbool b) ∈ params →
        (k, PVal.pstr (if b then "true" else "false")) ∈
          (omclient_request_params true params outcome).callerParams)
    ∧ ((k, PVal.pint n) ∈ params →
        (k, PVal.pint n) ∈
          (omclient_request_params true params outcome).callerParams)
    ∧ (k, PVal.pbool b) ∉ normalizeParams params := by
  refine ⟨rfl, ?_, ?_, ?_⟩
  · intro hmem
    show _ ∈ normalizeParams params
    exact List.mem_map_of_mem _ hmem
  · intro hmem
    show _ ∈ normalizeParams params
    exact List.mem_map_of_mem _ hmem
  · intro hmem
    obtain ⟨⟨k', v⟩, hv, heq⟩ := List.mem_map.mp hmem
    cases v <;> simp_all [normalizeParams]

/-- Witness for C10: a dict with a boolean and an integer value is rewritten
so that the boolean becomes the string "true" while the integer survives,
also when the attempt itself raises a timeout. -/
theorem request_params_normalized_in_place_witness :
    (omclient_request_params true [("on", PVal.pbool true), ("n", PVal.pint 5)]
        .timeout).callerParams =
      normalizeParams [("on", PVal.pbool true), ("n", PVal.pint 5)]
    ∧ ("on", PVal.pstr "true") ∈
      (omclient_request_params true
        [("on", PVal.pbool true), ("n", PVal.pint 5)] .timeout).callerParams
    ∧ ("n", PVal.pint 5) ∈
      (omclient_request_params true
        [("on", PVal.pbool true), ("n", PVal.pint 5)] .timeout).callerParams :=
  ⟨(request_params_normalized_in_place
      [("on", PVal.pbool true), ("n", PVal.pint 5)] .timeout "on" true 5).1,
   (request_params_normalized_in_place
      [("on", PVal.pbool true), ("n", PVal.pint 5)] .timeout "on" true
      5).2.1 (by simp),
   (request_params_normalized_in_place
      [("on", PVal.pbool true), ("n", PVal.pint 5)] .timeout "n" true
      5).2.2.1 (by simp)⟩
